import Mathlib

/-!
Verification of the tropical-cyclone forecast-track ingestion subsystem
(`climada_petals/hazard/tc_tracks_forecast.py`, class `TCForecast`).

The embedding below models the decoder over exact rationals: a BUFR floating
point value is a `Val := Option ℚ`, with `none` playing the role of
IEEE NaN (`np.nan`).  The ecCodes missing-value sentinels are the finite
constants `MISSING_DOUBLE` and `MISSING_LONG`.  Fallible Python code
(uncaught exceptions) is modelled with `Except String`; a caught
exception that makes the function return `None` is an `Except.ok none`.
-/

deriving instance DecidableEq for Except

/-- A floating-point cell: `none` models IEEE NaN (`np.nan`),
`some q` models the real value `q`. -/
abbrev Val := Option ℚ

/-- Python `str.strip()`: remove leading and trailing whitespace, modelled
over the character list. -/
def pyStrip (s : String) : String :=
  String.mk
    (((s.toList.dropWhile Char.isWhitespace).reverse.dropWhile
      Char.isWhitespace).reverse)

/-- Constant `eccodes.CODES_MISSING_DOUBLE`: the (finite) missing-value sentinel for
floating-point BUFR fields, `-1e+100`. -/
def MISSING_DOUBLE : ℚ := -(10 ^ 100)

/-- Constant `eccodes.CODES_MISSING_LONG`: the missing-value sentinel for integer
BUFR fields, `2147483647`. -/
def MISSING_LONG : Int := 2147483647

/-- Constant `SIG_CENTRE = 1`: BUFR code 008005 significance for 'storm centre'. -/
def SIG_CENTRE : Int := 1

/-- Constant `SAFFIR_MS_CAT`: Saffir-Simpson category thresholds in m/s. -/
def SAFFIR_MS_CAT : List ℚ := [18, 33, 43, 50, 59, 71, 1000]

/-- Modelled from the spec: `DEF_ENV_PRESSURE`, the fixed basin-independent
environmental-pressure default, is imported from the climada core package
(`climada.hazard.tc_tracks`), which is not part of this repository's sources;
the spec describes it only as "a fixed basin-independent constant".  Its
numeric value (1010 hPa) is irrelevant to every claim below. -/
def DEF_ENV_PRESSURE : ℚ := 1010

/-- The elementwise substitution `var[var == MISSING_DOUBLE] = np.nan`
performed by `TCForecast._check_variable` on a correctly-sized array. -/
def nanReplace (v : Val) : Val := if v = some MISSING_DOUBLE then none else v

/-- Function `TCForecast._check_variable(var, n_ens, varname)`.

Python source, branch for branch:
* `len(var) == n_ens` : replace sentinel entries by NaN, return the array;
* `len(var) == 1 and var[0] == MISSING_DOUBLE` : return `n_ens` NaNs;
* `len(var) == 1 and var[0] != MISSING_DOUBLE` : log a warning and
  broadcast the single value to `n_ens` entries;
* otherwise : `raise ValueError` — a bare exception carrying no message,
  so in particular no field name; `varname` is only ever used in the
  warning log line of the broadcast branch. -/
def checkVariable (var : List Val) (n_ens : Nat) ( varname : String) :
    Except String (List Val) :=
  if var.length = n_ens then
    Except.ok (var.map nanReplace)
  else
    match var with
    | [v] =>
      if v = some MISSING_DOUBLE then
        Except.ok (List.replicate n_ens none)
      else
        Except.ok (List.replicate n_ens v)
    | _ => Except.error "ValueError"

/-- The result of `TCForecast.get_value_from_bufr_array`: either a single
value (`var[0]`) or the whole array (`return var`). -/
inductive BufrVal where
  | scalar (v : Int)
  | arr (vs : List Int)
deriving DecidableEq, Repr

/-- Function `TCForecast.get_value_from_bufr_array(var)`.

Python source, branch for branch:
* `len(var) == 1` : the line `ValueError("Array contained a single, missing
  value")` merely *constructs* an exception without raising it, so the
  function always returns `var[0]` — even when it is the missing sentinel;
* otherwise : scan the array; at the first entry different from
  `MISSING_LONG`, return the *whole array*; if no such entry exists
  (which includes the case of an empty array, whose loop body never runs),
  raise `ValueError("Did not find a non-missing value in the array")`. -/
def getValueFromBufrArray (var : List Int) : Except String BufrVal :=
  if var.length = 1 then
    Except.ok (BufrVal.scalar var.headI)
  else
    if var.any (fun v => v ≠ MISSING_LONG) then
      Except.ok (BufrVal.arr var)
    else
      Except.error "Did not find a non-missing value in the array"

/-- The canonical trajectory (`xr.Dataset`) built by
`TCForecast._subset_to_track`, with per-time-step parallel lists and the
event-level attributes. -/
structure Track where
  time : List Int
  lat : List Val
  lon : List Val
  max_sustained_wind : List Val
  central_pressure : List Val
  time_step : List Int
  radius_max_wind : List Val
  environmental_pressure : List ℚ
  basin : List Char
  max_sustained_wind_unit : String
  central_pressure_unit : String
  name : String
  sid : String
  orig_event_flag : Bool
  data_provider : String
  id_no : ℚ
  ensemble_number : Int
  is_ensemble : Bool
  run_datetime : Int
  category : Int
deriving DecidableEq, Repr, Inhabited

/-- The message-level bundle `msg` assembled by `TCForecast.read_one_bufr_tc`:
per-member dense series for the four physical fields (the Python code keeps a
dict mapping the member index to a growing array; we keep a list of member
series), the lead-time sequence, and the subset metadata. -/
structure DecodedMsg where
  latitude : List (List Val)
  longitude : List (List Val)
  wind_10m : List (List Val)
  pressure : List (List Val)
  timestamp : List BufrVal
  wmo_longname : String
  storm_id : String
  ens_type : List Int
  ens_no : List Int

/-- Computation `np.array(msg['timestamp'])` for a list of per-timestep lead-time values:
only when every entry is a scalar does this produce the 1-D integer array the
remainder of `_subset_to_track` needs.  (Any `BufrVal.arr` entry makes the
list ragged — the decoder always stores the plain `0` at entry 0 — and
`np.array(...).squeeze().astype('timedelta64[h]')` on line 452-453 of the
source then fails *outside* the `try` block, aborting the caller.) -/
def asScalars : List BufrVal → Option (List Int)
  | [] => some []
  | BufrVal.scalar v :: rest => (asScalars rest).map (fun l => v :: l)
  | BufrVal.arr _ :: _ => none

/-- The set of time indices retained by `track.dropna('time')`.

`xarray.Dataset.dropna` inspects only the *data variables* of the dataset
(its `subset` argument defaults to `self.data_vars`).  At the point of the
`dropna` call the data variables are `max_sustained_wind`, `central_pressure`
and `ts_int`; `lat` and `lon` were passed through the `coords=` argument of
the `xr.Dataset` constructor and are therefore dataset *coordinates*, which
`dropna` does not inspect.  `ts_int` is an integer array and is never NaN.
Hence a row is dropped exactly when its wind or its pressure entry is NaN. -/
def keptIdx (wnd pre : List Val) (n : Nat) : List Nat :=
  (List.range n).filter (fun i => wnd.getD i none ≠ none ∧ pre.getD i none ≠ none)

/-- Modelled from the spec: `set_category` and `CAT_NAMES` live in the climada
core package (`climada.hazard.tc_tracks`), not in this repository.  Per the
spec, the category is the highest bucket of the threshold table whose
threshold is ≤ the peak wind over the retained track ("highest bucket whose
threshold is ≤ the peak wind"; equivalently, one less than the index of the
first strictly larger threshold).  We keep the numeric category index. -/
def setCategory (winds : List Val) : Int :=
  let defined := winds.filterMap id
  let peak := defined.foldl max (defined.headI)
  match SAFFIR_MS_CAT.findIdx? (fun thr => peak < thr) with
  | some i => (i : Int) - 1
  | none => -1

/-- The `xr.Dataset` assembled by the tail of `TCForecast._subset_to_track`
from the retained (post-`dropna`) rows:
* `time` is issuance time plus the retained lead-times (hours);
* `central_pressure` is the pressure divided by 100 (Pa → hPa; the division
  happens at construction time, before `dropna`, but NaN-ness is unaffected);
* `time_step = ts_int - ts_int.shift({'time': 1}, fill_value=0)` computed on
  the retained lead-times;
* `radius_max_wind` is all-NaN, `environmental_pressure` the fixed default;
* `basin` repeats `sid[2]`;
* `id_no = int(id_no) + index / 100`. -/
def mkBufrTrack (tsR : List Int) (latR lonR wndR preR : List Val) (sid : String)
    (b : Char) (provider : String) (t0 : Int) (nm : String) (id_no : Int)
    (index : Nat) (ens_no : Int) (ens_bool : Bool) : Track :=
  { time := tsR.map (fun v => t0 + v)
    lat := latR
    lon := lonR
    max_sustained_wind := wndR
    central_pressure := preR.map (Option.map (fun p => p / 100))
    time_step := tsR.zipWith (fun a c => a - c) (0 :: tsR)
    radius_max_wind := List.replicate tsR.length none
    environmental_pressure := List.replicate tsR.length DEF_ENV_PRESSURE
    basin := List.replicate tsR.length b
    max_sustained_wind_unit := "m/s"
    central_pressure_unit := "mb"
    name := nm
    sid := sid
    orig_event_flag := false
    data_provider := provider
    id_no := (id_no : ℚ) + (index : ℚ) / 100
    ensemble_number := ens_no
    is_ensemble := ens_bool
    run_datetime := t0
    category := setCategory wndR }

/-- Function `TCForecast._subset_to_track(msg, index, provider,
timestamp_origin, name, id_no)`.

* A non-scalar lead-time entry makes `np.array(msg['timestamp'])` ragged
  (entry 0 is always the scalar 0), and the conversion on source lines
  452-453 fails *before* the `try` block: an uncaught error (`Except.error`).
* The `try` block catches `ValueError` from the `xr.Dataset` constructor and
  returns `None` for it: this happens when a data or coordinate array length
  differs from the length of the `time` coordinate, and also when
  `np.squeeze` collapses a length-1 axis to a 0-d scalar (so any
  single-timestep subset yields `None`).
* `dropna` retains the indices of `keptIdx` (see there: wind/pressure only).
* If no retained row remains, return `None`.
* `sid[2]` on a storm identifier shorter than 3 characters raises an uncaught
  `IndexError`. -/
def subsetToTrack (msg : DecodedMsg) (index : Nat) (provider : String)
    (timestamp_origin : Int) (nm : String) (id_no : Int) :
    Except String (Option Track) :=
  match asScalars msg.timestamp with
  | none => Except.error "could not convert the lead-time list to a 1-D integer array"
  | some ts =>
    if ts.length ≤ 1 ∨ (msg.latitude.getD index []).length ≠ ts.length ∨
        (msg.longitude.getD index []).length ≠ ts.length ∨
        (msg.wind_10m.getD index []).length ≠ ts.length ∨
        (msg.pressure.getD index []).length ≠ ts.length then
      Except.ok none
    else
      if keptIdx (msg.wind_10m.getD index []) (msg.pressure.getD index [])
          ts.length = [] then
        Except.ok none
      else
        match (pyStrip msg.storm_id).toList.get? 2 with
        | none => Except.error "IndexError: string index out of range"
        | some b =>
          Except.ok (some (mkBufrTrack
            ((keptIdx (msg.wind_10m.getD index []) (msg.pressure.getD index [])
              ts.length).map (fun j => ts.getD j 0))
            ((keptIdx (msg.wind_10m.getD index []) (msg.pressure.getD index [])
              ts.length).map (fun j => (msg.latitude.getD index []).getD j none))
            ((keptIdx (msg.wind_10m.getD index []) (msg.pressure.getD index [])
              ts.length).map (fun j => (msg.longitude.getD index []).getD j none))
            ((keptIdx (msg.wind_10m.getD index []) (msg.pressure.getD index [])
              ts.length).map (fun j => (msg.wind_10m.getD index []).getD j none))
            ((keptIdx (msg.wind_10m.getD index []) (msg.pressure.getD index [])
              ts.length).map (fun j => (msg.pressure.getD index []).getD j none))
            (pyStrip msg.storm_id) b provider timestamp_origin nm id_no index
            (msg.ens_no.getD index 0)
            (msg.ens_type.getD index 0 ≠ 0)))

/-- One BUFR message as seen through the ecCodes field reader.  Repeated
fields are exposed by rank, exactly as the decoder addresses them:
`latArr`/`lonArr` by the significance rank (rank 2 is the analysis step),
`preArr`/`wndArr` by their own repetition index (index 1 is the analysis
step), `timePeriodArr` by timestep, `sigArr` by rank.
`timePeriodSize` is `codes_get_size(bufr, 'timePeriod')`; `none` models the
`CodesInternalError` raised when the key is entirely absent.
`timestampOrigin` stands for the `np.datetime64` assembled from the
year/month/day/hour/minute keys (in hours, since `astype('timedelta64[h]')`
lead-times are added to it). -/
structure BufrMsg where
  timestampOrigin : Int
  stormId : String
  longName : String
  centre : Int
  timePeriodSize : Option Nat
  ensNo : List Int
  ensType : List Int
  timePeriodArr : Nat → List Int
  sigArr : Nat → List Int
  latArr : Nat → List Val
  lonArr : Nat → List Val
  preArr : Nat → List Val
  wndArr : Nat → List Val

/-- The per-timestep slice extracted by one iteration of the decode loop. -/
structure StepData where
  lat : List Val
  lon : List Val
  pre : List Val
  wnd : List Val
  ts : BufrVal

/-- The Python truth test `if significance == 1:` (and `== 3` for the wind
group) applied to the result of `get_value_from_bufr_array`: when that
result is a whole numpy array, comparing it with a scalar inside `if`
raises the ambiguous-truth-value `ValueError`, so only a scalar result ever
reaches the comparison. -/
def scalarTruth (v : BufrVal) : Except String Int :=
  match v with
  | BufrVal.scalar s => Except.ok s
  | BufrVal.arr _ =>
    Except.error "the truth value of an array with more than one element is ambiguous"

/-- One iteration of the timestep loop of `TCForecast.read_one_bufr_tc`
(`for ind_timestep in range(1, n_timestep)`), at timestep `t ≥ 1`:
read the lead-time (`#t#timePeriod`); read and check the storm-centre
significance at rank `2t+2` (`if significance == 1`, where a non-scalar
significance makes the Python `if` raise the ambiguous-truth-value error,
and any scalar other than 1 raises
`ValueError('unexpected meteorologicalAttributeSignificance=', ...)`);
read lat/lon at rank `2t+2` and pressure at index `t+1`; read and check the
max-wind significance at rank `2t+3` against the code 3; read wind at index
`t+1`; finally normalize all four fields with `_check_variable`. -/
def decodeStep (msg : BufrMsg) (n_ens : Nat) (t : Nat) : Except String StepData := do
  let tsv ← getValueFromBufrArray (msg.timePeriodArr t)
  let sigv ← getValueFromBufrArray (msg.sigArr (2 * t + 2))
  let s ← scalarTruth sigv
  if s = SIG_CENTRE then do
    let sigW ← getValueFromBufrArray (msg.sigArr (2 * t + 3))
    let sw ← scalarTruth sigW
    if sw = 3 then do
      let lat ← checkVariable (msg.latArr (2 * t + 2)) n_ens
        ("Latitude at time " ++ toString t)
      let lon ← checkVariable (msg.lonArr (2 * t + 2)) n_ens
        ("Longitude at time " ++ toString t)
      let pre ← checkVariable (msg.preArr (t + 1)) n_ens
        ("Pressure at time " ++ toString t)
      let wnd ← checkVariable (msg.wndArr (t + 1)) n_ens
        ("Maximum 10m wind at time " ++ toString t)
      Except.ok { lat := lat, lon := lon, pre := pre, wnd := wnd, ts := tsv }
    else Except.error "unexpected meteorologicalAttributeSignificance"
  else Except.error "unexpected meteorologicalAttributeSignificance"

/-- Function `TCForecast.read_one_bufr_tc(file, id_no)` against the message `msg`,
threading the output collection `self.data` explicitly as `tracks`.

* A message whose `timePeriod` key is absent is skipped with a logged
  warning (`return None`): the collection is returned unchanged.
* `n_ens` is the length of the `ensembleMemberNumber` array; a length-1
  `ensembleForecastType` is broadcast to all members.
* The analysis-step fields are read at the fixed ranks (#2 for lat/lon,
  #1 for pressure/wind) and normalized with `_check_variable`; any
  `ValueError` it raises is uncaught here and propagates to the caller,
  as does any error of the timestep loop.
* Finally each member subset is assembled with `_subset_to_track`; a `None`
  result is dropped with a debug log, any other is appended. -/
def readOneBufrTc (msg : BufrMsg) (id_no : Int) (tracks : List Track) :
    Except String (List Track) :=
  match msg.timePeriodSize with
  | none => Except.ok tracks
  | some sz => do
    let n_ens := msg.ensNo.length
    let ens_type := if msg.ensType.length = 1 then
        List.replicate n_ens msg.ensType.headI
      else msg.ensType
    let lat_init ← checkVariable (msg.latArr 2) n_ens "Latitude at time 0"
    let lon_init ← checkVariable (msg.lonArr 2) n_ens "Longitude at time 0"
    let pre_init ← checkVariable (msg.preArr 1) n_ens "Pressure at time 0"
    let wnd_init ← checkVariable (msg.wndArr 1) n_ens "Maximum 10m wind at time 0"
    let steps ← (List.range' 1 sz).mapM (decodeStep msg n_ens)
    let latRows := lat_init :: steps.map StepData.lat
    let lonRows := lon_init :: steps.map StepData.lon
    let preRows := pre_init :: steps.map StepData.pre
    let wndRows := wnd_init :: steps.map StepData.wnd
    let decoded : DecodedMsg :=
      { latitude := (List.range n_ens).map (fun m => latRows.map (fun r => r.getD m none))
        longitude := (List.range n_ens).map (fun m => lonRows.map (fun r => r.getD m none))
        wind_10m := (List.range n_ens).map (fun m => wndRows.map (fun r => r.getD m none))
        pressure := (List.range n_ens).map (fun m => preRows.map (fun r => r.getD m none))
        timestamp := BufrVal.scalar 0 :: steps.map StepData.ts
        wmo_longname := pyStrip msg.longName
        storm_id := pyStrip msg.stormId
        ens_type := ens_type
        ens_no := msg.ensNo }
    let provider := if msg.centre = 98 then "ECMWF"
      else "BUFR code " ++ toString msg.centre
    (List.range n_ens).foldlM
      (fun acc i => do
        match ← subsetToTrack decoded i provider msg.timestampOrigin
            decoded.wmo_longname id_no with
        | some tr => Except.ok (acc ++ [tr])
        | none => Except.ok acc)
      tracks

/-- The message loop of `TCForecast.fetch_ecmwf`
(`for i, file in tqdm.tqdm(enumerate(files, 1), ...)`): each file is decoded
with `read_one_bufr_tc(file, id_no=i)`.  The loop body has no exception
handler, so the first uncaught decode error aborts the whole loop; the
trajectories appended by earlier iterations stay in `self.data`.  The result
pairs the final collection with the propagated error, if any. -/
def fetchEcmwfAux (i : Int) (msgs : List BufrMsg) (tracks : List Track) :
    List Track × Option String :=
  match msgs with
  | [] => (tracks, none)
  | m :: rest =>
    match readOneBufrTc m i tracks with
    | Except.ok tracks2 => fetchEcmwfAux (i + 1) rest tracks2
    | Except.error e => (tracks, some e)

/-- Function `TCForecast.fetch_ecmwf` on an already-fetched list of files, starting
from an empty collection. -/
def fetchEcmwf (msgs : List BufrMsg) : List Track × Option String :=
  fetchEcmwfAux 1 msgs []

/-- Modelled from the spec: the string form of a `numpy.datetime64`.
`str(np.datetime64)` / `np.datetime64(str)` is numpy code, external to this
repository; the spec's round-trip contract relies on it being an exact
inverse pair on timestamps ("`run_datetime` timestamp semantics").  We model
a timestamp's canonical string by a wrapper around the timestamp itself. -/
structure DtStr where
  val : Int
deriving DecidableEq, Repr

/-- Conversion `str(track.attrs['run_datetime'])` in `write_hdf5`. -/
def npDatetimeToStr (d : Int) : DtStr := ⟨d⟩

/-- Conversion `np.datetime64(track.attrs['run_datetime'])` applied to the stored
string in `from_hdf5` (and in the `finally` block of `write_hdf5`). -/
def npDatetimeOfStr (s : DtStr) : Int := s.val

/-- A track as it sits in the persisted HDF5 file: every field of `Track`
verbatim, except that `is_ensemble` was converted with `int(...)` and
`run_datetime` with `str(...)` to be NetCDF4-compliant. -/
structure StoredTrack where
  time : List Int
  lat : List Val
  lon : List Val
  max_sustained_wind : List Val
  central_pressure : List Val
  time_step : List Int
  radius_max_wind : List Val
  environmental_pressure : List ℚ
  basin : List Char
  max_sustained_wind_unit : String
  central_pressure_unit : String
  name : String
  sid : String
  orig_event_flag : Bool
  data_provider : String
  id_no : ℚ
  ensemble_number : Int
  is_ensemble : Int
  run_datetime : DtStr
  category : Int
deriving DecidableEq, Repr

/-- The attribute conversion performed by `TCForecast.write_hdf5` before
delegating to the parent class: `is_ensemble` becomes `int(is_ensemble)`
(1 for `True`, 0 for `False`), `run_datetime` becomes its string form;
every other field is written as-is. -/
def encodeTrack (t : Track) : StoredTrack :=
  { time := t.time, lat := t.lat, lon := t.lon
    max_sustained_wind := t.max_sustained_wind
    central_pressure := t.central_pressure
    time_step := t.time_step
    radius_max_wind := t.radius_max_wind
    environmental_pressure := t.environmental_pressure
    basin := t.basin
    max_sustained_wind_unit := t.max_sustained_wind_unit
    central_pressure_unit := t.central_pressure_unit
    name := t.name, sid := t.sid
    orig_event_flag := t.orig_event_flag
    data_provider := t.data_provider
    id_no := t.id_no
    ensemble_number := t.ensemble_number
    is_ensemble := if t.is_ensemble then 1 else 0
    run_datetime := npDatetimeToStr t.run_datetime
    category := t.category }

/-- The attribute restoration performed by `TCForecast.from_hdf5` (and by the
`finally` block of `write_hdf5`): `is_ensemble` becomes
`bool(is_ensemble)` (true exactly for a non-zero integer), `run_datetime`
becomes `np.datetime64(...)` of the stored string. -/
def decodeTrack (s : StoredTrack) : Track :=
  { time := s.time, lat := s.lat, lon := s.lon
    max_sustained_wind := s.max_sustained_wind
    central_pressure := s.central_pressure
    time_step := s.time_step
    radius_max_wind := s.radius_max_wind
    environmental_pressure := s.environmental_pressure
    basin := s.basin
    max_sustained_wind_unit := s.max_sustained_wind_unit
    central_pressure_unit := s.central_pressure_unit
    name := s.name, sid := s.sid
    orig_event_flag := s.orig_event_flag
    data_provider := s.data_provider
    id_no := s.id_no
    ensemble_number := s.ensemble_number
    is_ensemble := s.is_ensemble ≠ 0
    run_datetime := npDatetimeOfStr s.run_datetime
    category := s.category }

/-- Modelled from the spec: the parent-class persistence
(`TCTracks.write_hdf5` / `TCTracks.from_hdf5` in the climada core package,
plus the NetCDF4/HDF5 layer) is not part of this repository; the spec treats
it as an external collaborator whose storage format natively supports the
already-encoded attribute types (integers, strings, numeric arrays) and
reproduces them on read-back.  We model the persisted file by the encoded
track list itself. -/
def parentHdf5RoundTrip (data : List StoredTrack) : List StoredTrack := data

/-- Function `TCForecast.write_hdf5`: encode the special attributes of every track,
let the parent class persist the collection, and restore the attributes in
the `finally` block.  Returns the persisted file and the in-memory
collection as it is left after the call. -/
def writeHdf5 (tracks : List Track) : List StoredTrack × List Track :=
  (tracks.map encodeTrack, tracks.map (fun t => decodeTrack (encodeTrack t)))

/-- Function `TCForecast.from_hdf5`: read the persisted collection back and restore
`is_ensemble` and `run_datetime` on every track. -/
def fromHdf5 (file : List StoredTrack) : List Track :=
  (parentHdf5RoundTrip file).map decodeTrack

/-- A "last closed isobar" cell: originally a float column (`Sum.inl`), but
pandas `fillna` with the output of `basin.replace(...)` can also inject the
*basin string* itself when the basin has no entry in the mapping
(`Sum.inr`). -/
abbrev LciVal := Option (ℚ ⊕ String)

/-- One row of the tabular form produced by the XSLT transform and
`pd.read_csv` in `TCForecast._cxml_to_df` (one row per
event/basin/member/valid-time).  `is_named_storm` is a column computed by
`_cxml_to_df` itself; its value in a raw row is irrelevant. -/
structure CxmlRow where
  disturbance_no : Int
  baseTime : Int
  validTime : Option Int
  basin : String
  cycloneNumber : Option Int
  member : Option Int
  cycloneName : Option String
  hour : Option Int
  maximumWind : Val
  minimumPressure : Val
  maximumWindRadius : Val
  lastClosedIsobar : LciVal
  id : String
  origin : String
  latitude : Val
  longitude : Val
  is_named_storm : Bool
deriving DecidableEq, Repr, Inhabited

/-- Modelled from the spec (numeric values only): `BASIN_ENV_PRESSURE` is
imported from the climada core package, which is not part of this
repository's sources; `BASIN_ENV_PRESSURE_CXML` in the source maps the five
CXML basin names to those basin-specific environmental-pressure defaults.
The exact numbers do not matter to any claim, only that the mapping is
basin-specific. -/
def BASIN_ENV_PRESSURE_CXML (basin : String) : Option ℚ :=
  if basin = "Southwest Pacific" then some 1004
  else if basin = "North Indian" then some 1005
  else if basin = "Northeast Pacific" then some 1010
  else if basin = "Northwest Pacific" then some 1005
  else if basin = "North Atlantic" then some 1010
  else none

/-- The deterministic placeholder name
`cycloneNumber.astype(str) + " - " + basin` (a missing pandas `Int64`
renders as the string `<NA>`). -/
def defaultName (r : CxmlRow) : String :=
  (match r.cycloneNumber with
   | some n => toString n
   | none => "<NA>") ++ " - " ++ r.basin

/-- The column fills of `TCForecast._cxml_to_df` on one (retained) row:
`is_named_storm = -cycloneName.isna()` (computed *before* the fills), then
`fillna` of `cycloneName` with the placeholder name and of
`lastClosedIsobar` with `basin.replace(BASIN_ENV_PRESSURE_CXML)` — the
basin-specific default for a mapped basin name, the basin string itself
for an unmapped one (pandas `replace` leaves unmatched values unchanged). -/
def cxmlFillRow (r : CxmlRow) : CxmlRow :=
  { r with
    is_named_storm := r.cycloneName ≠ none
    cycloneName := some (r.cycloneName.getD (defaultName r))
    lastClosedIsobar :=
      match r.lastClosedIsobar with
      | some v => some v
      | none =>
        match BASIN_ENV_PRESSURE_CXML r.basin with
        | some p => some (Sum.inl p)
        | none => some (Sum.inr r.basin) }

/-- Function `TCForecast._cxml_to_df` after parsing: drop every row missing
`validTime`, `latitude` or `longitude`, then apply the column fills. -/
def cxmlToDf (rows : List CxmlRow) : List CxmlRow :=
  (rows.filter (fun r =>
    r.validTime ≠ none ∧ r.latitude ≠ none ∧ r.longitude ≠ none)).map cxmlFillRow

/-- The trajectory (`xr.Dataset`) built by `TCForecast._fcastdf_to_ds` from
one grouped sub-dataframe. -/
structure CxmlTrack where
  time : List (Option Int)
  lat : List Val
  lon : List Val
  max_sustained_wind : List Val
  central_pressure : List Val
  hour : List (Option Int)
  radius_max_wind : List Val
  environmental_pressure : List Val
  basin : List String
  max_sustained_wind_unit : String
  central_pressure_unit : String
  name : Option String
  sid : String
  orig_event_flag : Bool
  data_provider : String
  id_no : Option Int
  ensemble_number : Option Int
  is_ensemble : Bool
  run_datetime : Int
  is_named_storm : Bool
deriving DecidableEq, Repr

/-- Function `TCForecast._fcastdf_to_ds(track_as_df)`, column for column.  Note that
the `environmental_pressure` data variable is filled from the
`minimumPressure` column of the dataframe (source lines 617-620) — the same
column that feeds `central_pressure` — and not from the (default-filled)
`lastClosedIsobar` column. -/
def fcastdfToDs (rows : List CxmlRow) : CxmlTrack :=
  { time := rows.map CxmlRow.validTime
    lat := rows.map CxmlRow.latitude
    lon := rows.map CxmlRow.longitude
    max_sustained_wind := rows.map CxmlRow.maximumWind
    central_pressure := rows.map CxmlRow.minimumPressure
    hour := rows.map CxmlRow.hour
    radius_max_wind := rows.map CxmlRow.maximumWindRadius
    environmental_pressure := rows.map CxmlRow.minimumPressure
    basin := rows.map CxmlRow.basin
    max_sustained_wind_unit := "m/s"
    central_pressure_unit := "mb"
    name := rows.headI.cycloneName
    sid := rows.headI.id
    orig_event_flag := false
    data_provider := rows.headI.origin
    id_no := rows.headI.cycloneNumber
    ensemble_number := rows.headI.member
    is_ensemble := rows.headI.member ≠ none
    run_datetime := rows.headI.baseTime
    is_named_storm := rows.headI.is_named_storm }

/-- The grouping key of `read_cxml`:
`(disturbance_no, baseTime, basin, cycloneNumber, member)`. -/
def cxmlKey (r : CxmlRow) : Int × Int × String × Option Int × Option Int :=
  (r.disturbance_no, r.baseTime, r.basin, r.cycloneNumber, r.member)

/-- The distinct keys in first-seen order, as produced by
`groupby(..., sort=False, dropna=False)`. -/
def firstSeen {K : Type} [DecidableEq K] (ks : List K) : List K :=
  ks.foldl (fun acc k => if k ∈ acc then acc else acc ++ [k]) []

/-- Function `TCForecast.read_cxml`: transform the document to the flat table, group
by the key preserving first-seen order, and convert each group with
`_fcastdf_to_ds`. -/
def readCxml (rows : List CxmlRow) : List CxmlTrack :=
  let df := cxmlToDf rows
  (firstSeen (df.map cxmlKey)).map
    (fun k => fcastdfToDs (df.filter (fun r => cxmlKey r = k)))

set_option maxRecDepth 200000

/-! ### Concrete inputs used by witnesses and counterexamples -/

/-- A well-formed two-member, one-forecast-step message. -/
def c1good : BufrMsg :=
  { timestampOrigin := 0, stormId := "01L", longName := "ALPHA", centre := 98
    timePeriodSize := some 1
    ensNo := [1, 2], ensType := [1, 1]
    timePeriodArr := fun _ => [6]
    sigArr := fun r => if r = 4 then [1] else [3]
    latArr := fun _ => [some 10, some 11]
    lonArr := fun _ => [some 20, some 21]
    preArr := fun _ => [some 100000, some 100000]
    wndArr := fun _ => [some 20, some 25] }

/-- Like `c1good`, but the storm-centre significance at timestep 1 (rank 4)
is the unexpected code 4 instead of 1. -/
def c1bad : BufrMsg :=
  { timestampOrigin := 0, stormId := "02L", longName := "BETA", centre := 98
    timePeriodSize := some 1
    ensNo := [1, 2], ensType := [1, 1]
    timePeriodArr := fun _ => [6]
    sigArr := fun r => if r = 4 then [4] else [3]
    latArr := fun _ => [some 10, some 11]
    lonArr := fun _ => [some 20, some 21]
    preArr := fun _ => [some 100000, some 100000]
    wndArr := fun _ => [some 20, some 25] }

/-- A message whose `timePeriod` key is entirely absent. -/
def c8msg : BufrMsg :=
  { timestampOrigin := 0, stormId := "06L", longName := "ZETA", centre := 98
    timePeriodSize := none
    ensNo := [1], ensType := [1]
    timePeriodArr := fun _ => []
    sigArr := fun _ => []
    latArr := fun _ => []
    lonArr := fun _ => []
    preArr := fun _ => []
    wndArr := fun _ => [] }

/-- One decoded member bundle whose latitude is NaN at step 1 while wind and
pressure are defined everywhere. -/
def c2msg : DecodedMsg :=
  { latitude := [[some 1, none]]
    longitude := [[some 2, some 2]]
    wind_10m := [[some 10, some 10]]
    pressure := [[some 100000, some 100000]]
    timestamp := [BufrVal.scalar 0, BufrVal.scalar 6]
    wmo_longname := "GAMMA", storm_id := "03L", ens_type := [1], ens_no := [1] }

/-- One decoded member bundle whose wind is NaN at the analysis step (lead
time 0), so the first retained row has lead time 6. -/
def c3msg : DecodedMsg :=
  { latitude := [[some 1, some 1, some 1]]
    longitude := [[some 2, some 2, some 2]]
    wind_10m := [[none, some 10, some 12]]
    pressure := [[some 100000, some 100000, some 100000]]
    timestamp := [BufrVal.scalar 0, BufrVal.scalar 6, BufrVal.scalar 18]
    wmo_longname := "DELTA", storm_id := "04L", ens_type := [1], ens_no := [1] }

/-- A fully-defined decoded member bundle with a lead-time gap. -/
def c3wMsg : DecodedMsg :=
  { latitude := [[some 1, some 1, some 1]]
    longitude := [[some 2, some 2, some 2]]
    wind_10m := [[some 9, some 10, some 12]]
    pressure := [[some 100000, some 100000, some 100000]]
    timestamp := [BufrVal.scalar 0, BufrVal.scalar 6, BufrVal.scalar 18]
    wmo_longname := "EPSILON", storm_id := "05L", ens_type := [1], ens_no := [1] }

/-- The trajectory assembled from `c3wMsg` (it exists; see `c3_witness`). -/
def c3wTrack : Track :=
  ((subsetToTrack c3wMsg 0 "ECMWF" 0 "EPSILON" 7).toOption.join).iget

/-- A fully-defined two-member decoded bundle. -/
def c6wMsg : DecodedMsg :=
  { latitude := [[some 1, some 1], [some 3, some 3]]
    longitude := [[some 2, some 2], [some 4, some 4]]
    wind_10m := [[some 9, some 10], [some 11, some 12]]
    pressure := [[some 100000, some 100000], [some 100000, some 100000]]
    timestamp := [BufrVal.scalar 0, BufrVal.scalar 6]
    wmo_longname := "ETA", storm_id := "07L", ens_type := [1, 1], ens_no := [1, 2] }

/-- The trajectory assembled from member 0 of `c6wMsg`. -/
def c6wTrack0 : Track :=
  ((subsetToTrack c6wMsg 0 "ECMWF" 0 "ETA" 5).toOption.join).iget

/-- The trajectory assembled from member 1 of `c6wMsg`. -/
def c6wTrack1 : Track :=
  ((subsetToTrack c6wMsg 1 "ECMWF" 0 "ETA" 5).toOption.join).iget

/-- A fully-defined decoded bundle with 101 ensemble members. -/
def c6msg101 : DecodedMsg :=
  { latitude := List.replicate 101 [some 1, some 1]
    longitude := List.replicate 101 [some 2, some 2]
    wind_10m := List.replicate 101 [some 9, some 10]
    pressure := List.replicate 101 [some 100000, some 100000]
    timestamp := [BufrVal.scalar 0, BufrVal.scalar 6]
    wmo_longname := "THETA", storm_id := "08L", ens_type := List.replicate 101 1
    ens_no := (List.range 101).map Int.ofNat }

/-- One CXML table row whose `lastClosedIsobar` is missing while
`minimumPressure` is 950, in a basin ("North Atlantic") that has a
basin-specific environmental-pressure default (1010). -/
def c4row : CxmlRow :=
  { disturbance_no := 1, baseTime := 0, validTime := some 0
    basin := "North Atlantic", cycloneNumber := some 7, member := some 1
    cycloneName := some "DELTA", hour := some 0
    maximumWind := some 30, minimumPressure := some 950
    maximumWindRadius := none, lastClosedIsobar := none
    id := "NA07", origin := "ECMWF", latitude := some 10, longitude := some 20
    is_named_storm := false }

/-! ### Helper lemmas -/

theorem nanReplace_idem (v : Val) : nanReplace (nanReplace v) = nanReplace v := by
  by_cases h : v = some MISSING_DOUBLE <;> simp [nanReplace, h]

theorem map_nanReplace_idem (l : List Val) :
    (l.map nanReplace).map nanReplace = l.map nanReplace := by
  induction l with
  | nil => rfl
  | cons a t ih => simp [ih, nanReplace_idem]

/-! ### Claims -/

/-- C7: for every expected member count `n ≥ 1` and every raw array of length
exactly `n`, the normalizer `_check_variable` is idempotent: applied to its
own output (the dense array with sentinels already replaced by NaN) it
returns that array unchanged. -/
theorem checkVariable_idempotent (var : List Val) (n : Nat) (s : String)
    (hn : 1 ≤ n) (hl : var.length = n) (w : List Val)
    (hw : checkVariable var n s = Except.ok w) :
    checkVariable w n s = Except.ok w := by
  unfold checkVariable at hw ⊢
  rw [if_pos hl] at hw
  injection hw with hw
  subst hw
  rw [if_pos (by simpa using hl)]
  rw [map_nanReplace_idem]

/-- Witness for C7 at a concrete input: `n = 2`,
`var = [MISSING_DOUBLE, 5]`, whose normalization is `[NaN, 5]`. -/
theorem checkVariable_idempotent_witness :
    checkVariable [none, some 5] 2 "x" = Except.ok [none, some 5] :=
  checkVariable_idempotent [some MISSING_DOUBLE, some 5] 2 "x" (by norm_num)
    (by decide) [none, some 5] (by decide)

/-- C5 counterexample: the structural error raised for a length-mismatched
array is the bare `ValueError`, identical for two different field names, so
it cannot identify the field name (nor describe the mismatch), contrary to
the claim. -/
theorem c5_counterexample :
    checkVariable [some 1, some 2] 3 "Latitude at time 0" =
      Except.error "ValueError" ∧
    checkVariable [some 1, some 2] 3 "Longitude at time 0" =
      Except.error "ValueError" ∧
    "Latitude at time 0" ≠ "Longitude at time 0" := by decide

/-- C5 (amended): for every raw array and expected member count `n ≥ 1`, the
normalizer returns: at length `n`, the array with sentinel entries replaced
by NaN; at length 1 with the sentinel value, `n` NaNs; at length 1 with a
real value, that value broadcast to `n` members; and for any other length it
fails with a structural error — a bare `ValueError` that identifies neither
the field name nor the mismatch — and never returns an array. -/
theorem checkVariable_spec (var : List Val) (n : Nat) (s : String)
    (hn : 1 ≤ n) :
    (var.length = n → checkVariable var n s = Except.ok (var.map nanReplace)) ∧
    (var.length = 1 → var.headI = some MISSING_DOUBLE →
      checkVariable var n s = Except.ok (List.replicate n none)) ∧
    (var.length = 1 → var.headI ≠ some MISSING_DOUBLE →
      checkVariable var n s = Except.ok (List.replicate n var.headI)) ∧
    (var.length ≠ n → var.length ≠ 1 →
      checkVariable var n s = Except.error "ValueError") := by
  refine ⟨fun h => ?_, fun h1 hMD => ?_, fun h1 hMD => ?_, fun hne h1 => ?_⟩
  · unfold checkVariable
    rw [if_pos h]
  · obtain ⟨v, rfl⟩ := List.length_eq_one.mp h1
    simp only [List.headI] at hMD
    by_cases hn1 : n = 1
    · subst hn1
      unfold checkVariable
      rw [if_pos h1]
      simp [nanReplace, hMD]
    · unfold checkVariable
      rw [if_neg (by simpa using fun h => hn1 h.symm)]
      simp [hMD]
  · obtain ⟨v, rfl⟩ := List.length_eq_one.mp h1
    simp only [List.headI] at hMD ⊢
    by_cases hn1 : n = 1
    · subst hn1
      unfold checkVariable
      rw [if_pos h1]
      simp [nanReplace, hMD]
    · unfold checkVariable
      rw [if_neg (by simpa using fun h => hn1 h.symm)]
      simp [hMD]
  · unfold checkVariable
    rw [if_neg hne]
    rcases var with _ | ⟨v, t⟩
    · rfl
    · rcases t with _ | ⟨v2, t2⟩
      · exact absurd rfl h1
      · rfl

/-- Witness for C5 at a concrete input: `n = 3`, `var = [MISSING_DOUBLE]`
(a single sentinel value). -/
theorem c5_witness :
    (([some MISSING_DOUBLE] : List Val).length = 3 →
      checkVariable [some MISSING_DOUBLE] 3 "w" =
        Except.ok (([some MISSING_DOUBLE] : List Val).map nanReplace)) ∧
    (([some MISSING_DOUBLE] : List Val).length = 1 →
      ([some MISSING_DOUBLE] : List Val).headI = some MISSING_DOUBLE →
      checkVariable [some MISSING_DOUBLE] 3 "w" =
        Except.ok (List.replicate 3 none)) ∧
    (([some MISSING_DOUBLE] : List Val).length = 1 →
      ([some MISSING_DOUBLE] : List Val).headI ≠ some MISSING_DOUBLE →
      checkVariable [some MISSING_DOUBLE] 3 "w" =
        Except.ok (List.replicate 3 ([some MISSING_DOUBLE] : List Val).headI)) ∧
    (([some MISSING_DOUBLE] : List Val).length ≠ 3 →
      ([some MISSING_DOUBLE] : List Val).length ≠ 1 →
      checkVariable [some MISSING_DOUBLE] 3 "w" = Except.error "ValueError") :=
  checkVariable_spec [some MISSING_DOUBLE] 3 "w" (by norm_num)

/-- C10 counterexample: the claim's parenthetical says the function raises
*only* for arrays of length greater than 1 that are entirely sentinel; but
an empty array (length 0, not greater than 1) also raises, because the
scan loop finds no non-missing entry. -/
theorem c10_counterexample :
    getValueFromBufrArray ([] : List Int) =
      Except.error "Did not find a non-missing value in the array" ∧
    ¬ 1 < ([] : List Int).length := by decide

/-- C10 (amended): a length-1 array whose single entry is the integer
missing sentinel is returned unchanged (the `ValueError` on that path is
constructed but never raised), and the function raises exactly when the
array's length differs from 1 and every entry equals the sentinel — which
includes the empty array, not only arrays of length greater than 1. -/
theorem getValueFromBufrArray_spec (var : List Int) :
    (var.length = 1 →
      getValueFromBufrArray var = Except.ok (BufrVal.scalar var.headI)) ∧
    (getValueFromBufrArray var =
        Except.error "Did not find a non-missing value in the array" ↔
      var.length ≠ 1 ∧ ∀ v ∈ var, v = MISSING_LONG) := by
  constructor
  · intro h
    unfold getValueFromBufrArray
    rw [if_pos h]
  · unfold getValueFromBufrArray
    by_cases h1 : var.length = 1
    · rw [if_pos h1]
      simp [h1]
    · rw [if_neg h1]
      by_cases h2 : var.any (fun v => !decide (v = MISSING_LONG))
      · rw [if_pos (by simpa using h2)]
        simp only [List.any_eq_true, Bool.not_eq_true', decide_eq_false_iff_not] at h2
        obtain ⟨v, hv, hne⟩ := h2
        constructor
        · intro h
          exact Except.noConfusion h
        · rintro ⟨-, hall⟩
          exact absurd (hall v hv) hne
      · rw [if_neg (by simpa using h2)]
        simp only [List.any_eq_true, Bool.not_eq_true', decide_eq_false_iff_not,
          not_exists, not_and, not_not] at h2
        exact ⟨fun _ => ⟨h1, h2⟩, fun _ => rfl⟩

/-- Witness for C10 at a concrete input: the length-1 all-sentinel array. -/
theorem c10_witness :
    getValueFromBufrArray [MISSING_LONG] =
      Except.ok (BufrVal.scalar MISSING_LONG) :=
  (getValueFromBufrArray_spec [MISSING_LONG]).1 rfl

/-- C8: a message whose lead-time (`timePeriod`) key is entirely absent is
skipped with a logged warning: decoding it returns the output collection
unchanged and raises nothing, and the run loop simply moves on to the next
message with the accumulated collection intact. -/
theorem missing_timePeriod_skips_message (m : BufrMsg) (rest : List BufrMsg)
    (i : Int) (tracks : List Track) (h : m.timePeriodSize = none) :
    readOneBufrTc m i tracks = Except.ok tracks ∧
    fetchEcmwfAux i (m :: rest) tracks = fetchEcmwfAux (i + 1) rest tracks := by
  have h1 : readOneBufrTc m i tracks = Except.ok tracks := by
    unfold readOneBufrTc
    rw [h]
  refine ⟨h1, ?_⟩
  show (match readOneBufrTc m i tracks with
      | Except.ok tracks2 => fetchEcmwfAux (i + 1) rest tracks2
      | Except.error e => (tracks, some e)) =
    fetchEcmwfAux (i + 1) rest tracks
  rw [h1]

/-- Witness for C8 at a concrete input: `c8msg` has no `timePeriod` key. -/
theorem c8_witness :
    readOneBufrTc c8msg 1 [] = Except.ok [] ∧
    fetchEcmwfAux 1 (c8msg :: [c1good]) [] = fetchEcmwfAux (1 + 1) [c1good] [] :=
  missing_timePeriod_skips_message c8msg [c1good] 1 [] rfl

/-- C9: writing a trajectory collection to the persisted HDF5 format and
reading it back reproduces every field of every track identically — in
particular `is_ensemble` as the same boolean (restored with `bool(...)` from
the stored integer) and `run_datetime` as the same timestamp value and type
(restored with `np.datetime64(...)` from the stored string).  The
`finally` block of `write_hdf5` also restores the in-memory collection. -/
theorem hdf5_round_trip (tracks : List Track) :
    fromHdf5 (writeHdf5 tracks).1 = tracks ∧ (writeHdf5 tracks).2 = tracks := by
  have hdec : ∀ t : Track, decodeTrack (encodeTrack t) = t := by
    rintro ⟨time, lat, lon, msw, cp, tst, rmw, ep, bas, mu, cu, nm, sid, oef,
      dp, idn, en, ie, rd, cat⟩
    simp only [encodeTrack, decodeTrack, npDatetimeToStr, npDatetimeOfStr]
    cases ie <;> simp
  have hcomp : decodeTrack ∘ encodeTrack = id := funext hdec
  constructor
  · simp [fromHdf5, writeHdf5, parentHdf5RoundTrip, List.map_map, hcomp]
  · simp [writeHdf5, hdec]

/-- C2 (evaluation at the failing input): for the member bundle `c2msg`,
whose latitude is NaN at step 1 while wind and pressure are defined at both
steps, the assembled trajectory *retains* both rows — the output has 2 time
steps and its latitude still contains the NaN — although only 1 row has all
four of latitude, longitude, wind and pressure defined.  `dropna` inspects
only the data variables (wind, pressure, `ts_int`); `lat`/`lon` entered the
dataset as coordinates, contradicting the code's own comment
"can only make latlon coords after dropna". -/
theorem c2_nan_latitude_retained :
    (subsetToTrack c2msg 0 "ECMWF" 0 "GAMMA" 1).toOption.join.map
      (fun tr => (tr.lat, tr.time.length)) = some ([some 1, none], 2) ∧
    ¬ (2 = 1) := by decide

/-- C4 (evaluation at the failing input): for the CXML row `c4row` (basin
"North Atlantic", `lastClosedIsobar` missing, `minimumPressure` 950), the
tabular stage does fill `lastClosedIsobar` with the basin-specific default
1010, but the produced trajectory's `environmental_pressure` is 950 — it is
read from the `minimumPressure` column, not from the filled
`lastClosedIsobar` column. -/
theorem c4_env_pressure_from_min_pressure :
    (readCxml [c4row]).map CxmlTrack.environmental_pressure = [[some 950]] ∧
    (cxmlToDf [c4row]).map CxmlRow.lastClosedIsobar = [some (Sum.inl 1010)] ∧
    (950 : ℚ) ≠ 1010 := by decide

/-- C1 counterexample: in the run `[c1bad, c1good]`, the unexpected
significance qualifier in `c1bad` aborts the whole run — the sibling message
`c1good`, which decodes to a non-empty track list on its own, contributes no
trajectories — contradicting the claim that every sibling message in the
same run is still decoded. -/
theorem c1_counterexample :
    (fetchEcmwf [c1bad, c1good]).1 = [] ∧ (fetchEcmwf [c1good]).1 ≠ [] := by
  decide

/-- C3 counterexample: for the member bundle `c3msg`, whose wind is NaN at
the analysis row (lead time 0), the retained lead-times are `[6, 18]` and
the derived deltas are `[6, 12]` — the first retained step's `time_step` is
its lead-time 6, not 0 as the claim states. -/
theorem c3_counterexample :
    (subsetToTrack c3msg 0 "ECMWF" 0 "DELTA" 7).toOption.join.map
      Track.time_step = some [6, 12] ∧
    some [6, 12] ≠ some [(0 : Int), 12] := by decide

/-- C6 counterexample: with 101 members sharing base id 2024010100, the
member ids are `base + index / 100`; at index 99 the fractional part is
99/100, but at index 100 the id is `base + 1` whose fractional part is 0 —
the fractional parts are not strictly increasing with member index. -/
theorem c6_counterexample :
    (subsetToTrack c6msg101 99 "ECMWF" 0 "THETA" 2024010100).toOption.join.map
      (fun tr => Int.fract tr.id_no) = some (99 / 100 : ℚ) ∧
    (subsetToTrack c6msg101 100 "ECMWF" 0 "THETA" 2024010100).toOption.join.map
      (fun tr => Int.fract tr.id_no) = some 0 ∧
    ¬ (99 / 100 : ℚ) < 0 := by
  refine ⟨?_, ?_, ?_⟩
  · with_unfolding_all rfl
  · with_unfolding_all rfl
  · exact of_decide_eq_true (by with_unfolding_all rfl)

theorem zipWith_sub_shift_getD (prev : Int) (xs : List Int) (j : Nat)
    (h : j + 1 < xs.length) :
    (xs.zipWith (fun a c => a - c) (prev :: xs)).getD (j + 1) 0 =
      xs.getD (j + 1) 0 - xs.getD j 0 := by
  induction xs generalizing prev j with
  | nil => simp at h
  | cons x t ih =>
    cases j with
    | zero =>
      cases t with
      | nil => simp at h
      | cons y t2 => simp
    | succ k =>
      have h2 : k + 1 < t.length := by simpa using h
      simpa using ih x k h2

theorem zipWith_sub_shift_getD_zero (xs : List Int) :
    (xs.zipWith (fun a c => a - c) (0 :: xs)).getD 0 0 = xs.getD 0 0 := by
  cases xs <;> simp

theorem zipWith_sub_shift_length (xs : List Int) :
    (xs.zipWith (fun a c => a - c) (0 :: xs)).length = xs.length := by
  simp [List.length_zipWith]

theorem map_add_getD (t0 : Int) (xs : List Int) (j : Nat) (h : j < xs.length) :
    (xs.map (fun v => t0 + v)).getD j 0 = t0 + xs.getD j 0 := by
  induction xs generalizing j with
  | nil => simp at h
  | cons x t ih =>
    cases j with
    | zero => simp
    | succ k => simpa using ih k (by simpa using h)

/-- Inversion of a successful `_subset_to_track` call: the produced
trajectory is the canonical dataset built from the non-empty retained row
set. -/
theorem subsetToTrack_some (msg : DecodedMsg) (index : Nat) (p : String)
    (t0 : Int) (nm : String) (idn : Int) (tr : Track)
    (h : subsetToTrack msg index p t0 nm idn = Except.ok (some tr)) :
    ∃ tsR latR lonR wndR preR sid b en eb,
      tsR ≠ ([] : List Int) ∧
      tr = mkBufrTrack tsR latR lonR wndR preR sid b p t0 nm idn index en eb := by
  unfold subsetToTrack at h
  split at h
  · exact Except.noConfusion h
  · split at h
    · exact Option.noConfusion (Except.ok.inj h)
    · split at h
      · exact Option.noConfusion (Except.ok.inj h)
      · next hkeep =>
        split at h
        · exact Except.noConfusion h
        · injection h with h
          injection h with h
          subst h
          refine ⟨_, _, _, _, _, _, _, _, _, ?_, rfl⟩
          simpa [List.map_eq_nil_iff] using hkeep

/-- C3 (amended): on every assembled trajectory, `time_step` at retained
step `j+1` equals the difference between that step's lead-time and the
previous retained step's lead-time, computed after undefined rows are
dropped (timestamps are issuance time plus lead-time, so lead-time
differences equal timestamp differences); but the first retained step's
`time_step` equals that step's own lead-time (`time[0] - t0`, the shifted
fill value being 0), which is zero exactly when the analysis row is
retained — not always, as the claim states. -/
theorem time_step_is_lead_time_delta (msg : DecodedMsg) (index : Nat)
    (p : String) (t0 : Int) (nm : String) (idn : Int) (j : Nat) (tr : Track)
    (h : subsetToTrack msg index p t0 nm idn = Except.ok (some tr)) :
    tr.time_step.length = tr.time.length ∧
    (j + 1 < tr.time.length →
      tr.time_step.getD (j + 1) 0 = tr.time.getD (j + 1) 0 - tr.time.getD j 0) ∧
    tr.time_step.getD 0 0 = tr.time.getD 0 0 - t0 := by
  obtain ⟨tsR, latR, lonR, wndR, preR, sid, b, en, eb, hne, rfl⟩ :=
    subsetToTrack_some msg index p t0 nm idn tr h
  refine ⟨?_, ?_, ?_⟩
  · simp only [mkBufrTrack]
    rw [zipWith_sub_shift_length, List.length_map]
  · intro hj
    simp only [mkBufrTrack] at hj ⊢
    rw [List.length_map] at hj
    rw [zipWith_sub_shift_getD 0 tsR j hj]
    rw [map_add_getD t0 tsR (j + 1) hj, map_add_getD t0 tsR j (by omega)]
    omega
  · simp only [mkBufrTrack]
    rw [zipWith_sub_shift_getD_zero]
    obtain ⟨x, t, rfl⟩ : ∃ x t, tsR = x :: t := by
      cases tsR with
      | nil => exact absurd rfl hne
      | cons x t => exact ⟨x, t, rfl⟩
    simp

/-- Witness for C3 (amended) at a concrete input: the trajectory assembled
from `c3wMsg` (lead-times 0, 6, 18), at `j = 0`. -/
theorem c3_witness :
    c3wTrack.time_step.length = c3wTrack.time.length ∧
    (0 + 1 < c3wTrack.time.length →
      c3wTrack.time_step.getD (0 + 1) 0 =
        c3wTrack.time.getD (0 + 1) 0 - c3wTrack.time.getD 0 0) ∧
    c3wTrack.time_step.getD 0 0 = c3wTrack.time.getD 0 0 - 0 :=
  time_step_is_lead_time_delta c3wMsg 0 "ECMWF" 0 "EPSILON" 7 0 c3wTrack
    (by with_unfolding_all rfl)

/-- C6 (amended): the numeric id of the member at index `i` equals
`B + i/100`, and ids of distinct members sharing one base id are pairwise
distinct; the fractional parts are strictly increasing with member index
*for indices up to 99* — for index 100 and beyond `i/100` reaches 1 and the
fractional part wraps. -/
theorem member_id_assignment (msg : DecodedMsg) (p : String) (t0 : Int)
    (nm : String) (B : Int) (i j : Nat) (ti tj : Track)
    (hi : subsetToTrack msg i p t0 nm B = Except.ok (some ti))
    (hj : subsetToTrack msg j p t0 nm B = Except.ok (some tj))
    (hij : i < j) :
    ti.id_no = (B : ℚ) + (i : ℚ) / 100 ∧
    tj.id_no = (B : ℚ) + (j : ℚ) / 100 ∧
    ti.id_no ≠ tj.id_no ∧
    (j ≤ 99 → Int.fract ti.id_no < Int.fract tj.id_no) := by
  obtain ⟨_, _, _, _, _, _, _, _, _, _, rfl⟩ :=
    subsetToTrack_some msg i p t0 nm B ti hi
  obtain ⟨_, _, _, _, _, _, _, _, _, _, rfl⟩ :=
    subsetToTrack_some msg j p t0 nm B tj hj
  have hIJ : (i : ℚ) < (j : ℚ) := by exact_mod_cast hij
  have hlt : (i : ℚ) / 100 < (j : ℚ) / 100 :=
    (div_lt_div_iff_of_pos_right (by norm_num)).mpr hIJ
  refine ⟨rfl, rfl, ?_, ?_⟩
  · show (B : ℚ) + (i : ℚ) / 100 ≠ (B : ℚ) + (j : ℚ) / 100
    intro heq
    exact absurd (add_left_cancel heq) (ne_of_lt hlt)
  · intro hj99
    show Int.fract ((B : ℚ) + (i : ℚ) / 100) <
      Int.fract ((B : ℚ) + (j : ℚ) / 100)
    rw [Int.fract_int_add, Int.fract_int_add]
    have hi100 : i < 100 := by omega
    have hj100 : j < 100 := by omega
    have hi1 : (i : ℚ) / 100 < 1 := by
      rw [div_lt_one (by norm_num)]
      exact_mod_cast hi100
    have hj1 : (j : ℚ) / 100 < 1 := by
      rw [div_lt_one (by norm_num)]
      exact_mod_cast hj100
    rw [Int.fract_eq_self.mpr ⟨by positivity, hi1⟩,
      Int.fract_eq_self.mpr ⟨by positivity, hj1⟩]
    exact hlt

/-- Witness for C6 (amended) at a concrete input: members 0 and 1 of
`c6wMsg` with base id 5. -/
theorem c6_witness :
    c6wTrack0.id_no = ((5 : Int) : ℚ) + ((0 : Nat) : ℚ) / 100 ∧
    c6wTrack1.id_no = ((5 : Int) : ℚ) + ((1 : Nat) : ℚ) / 100 ∧
    c6wTrack0.id_no ≠ c6wTrack1.id_no ∧
    (1 ≤ 99 → Int.fract c6wTrack0.id_no < Int.fract c6wTrack1.id_no) :=
  member_id_assignment c6wMsg "ECMWF" 0 "ETA" 5 0 1 c6wTrack0 c6wTrack1
    (by with_unfolding_all rfl) (by with_unfolding_all rfl) (by norm_num)

theorem except_bind_ok {ε α β : Type} (a : α) (f : α → Except ε β) :
    (Except.ok a >>= f : Except ε β) = f a := rfl

theorem except_bind_error {ε α β : Type} (e : ε) (f : α → Except ε β) :
    ((Except.error e : Except ε α) >>= f) = Except.error e := rfl

theorem scalarTruth_scalar (s : Int) :
    scalarTruth (BufrVal.scalar s) = Except.ok s := rfl

theorem except_mapM_cons_error {ε α β : Type} (f : α → Except ε β) (a : α)
    (l : List α) (e : ε) (h : f a = Except.error e) :
    (a :: l).mapM f = Except.error e := by
  simp [List.mapM, List.mapM.loop, h, except_bind_error]

/-- At timestep 1, a scalar storm-centre significance different from
`SIG_CENTRE` makes the decode step fail with the unexpected-significance
error (provided the lead-time read itself succeeded). -/
theorem decodeStep_bad_significance (m : BufrMsg) (n_ens : Nat) (tv : BufrVal)
    (s : Int)
    (htp : getValueFromBufrArray (m.timePeriodArr 1) = Except.ok tv)
    (hsig : getValueFromBufrArray (m.sigArr (2 * 1 + 2)) =
      Except.ok (BufrVal.scalar s))
    (hbad : s ≠ SIG_CENTRE) :
    decodeStep m n_ens 1 =
      Except.error "unexpected meteorologicalAttributeSignificance" := by
  simp only [decodeStep, htp, hsig, except_bind_ok, scalarTruth_scalar,
    if_neg hbad]

/-- C1 (amended): if decoding one message meets a storm-centre significance
qualifier other than `SIG_CENTRE` at timestep 1, that message raises the
unexpected-significance error before appending anything, so it yields zero
trajectories; but the error is *not* message-scoped at the run level: the
run loop has no handler, so the trajectories accumulated from sibling
messages decoded *earlier* are retained while sibling messages *after* the
failing one are never decoded. -/
theorem significance_error_aborts_run (m : BufrMsg) (rest : List BufrMsg)
    (i : Int) (tracks : List Track) (n : Nat) (tv : BufrVal) (s : Int)
    (v1 v2 v3 v4 : List Val)
    (hts : m.timePeriodSize = some n) (hn : 0 < n)
    (h1 : checkVariable (m.latArr 2) m.ensNo.length "Latitude at time 0" =
      Except.ok v1)
    (h2 : checkVariable (m.lonArr 2) m.ensNo.length "Longitude at time 0" =
      Except.ok v2)
    (h3 : checkVariable (m.preArr 1) m.ensNo.length "Pressure at time 0" =
      Except.ok v3)
    (h4 : checkVariable (m.wndArr 1) m.ensNo.length
      "Maximum 10m wind at time 0" = Except.ok v4)
    (htp : getValueFromBufrArray (m.timePeriodArr 1) = Except.ok tv)
    (hsig : getValueFromBufrArray (m.sigArr (2 * 1 + 2)) =
      Except.ok (BufrVal.scalar s))
    (hbad : s ≠ SIG_CENTRE) :
    readOneBufrTc m i tracks =
      Except.error "unexpected meteorologicalAttributeSignificance" ∧
    fetchEcmwfAux i (m :: rest) tracks =
      (tracks, some "unexpected meteorologicalAttributeSignificance") := by
  have hstep := decodeStep_bad_significance m m.ensNo.length tv s htp hsig hbad
  obtain ⟨n0, rfl⟩ : ∃ n0, n = n0 + 1 := ⟨n - 1, by omega⟩
  have herr : readOneBufrTc m i tracks =
      Except.error "unexpected meteorologicalAttributeSignificance" := by
    unfold readOneBufrTc
    rw [hts]
    have hmap : (List.range' 1 (n0 + 1)).mapM (decodeStep m m.ensNo.length) =
        Except.error "unexpected meteorologicalAttributeSignificance" := by
      rw [List.range'_succ]
      exact except_mapM_cons_error _ 1 _ _ hstep
    simp only [h1, h2, h3, h4, except_bind_ok, hmap, except_bind_error]
  refine ⟨herr, ?_⟩
  show (match readOneBufrTc m i tracks with
      | Except.ok tracks2 => fetchEcmwfAux (i + 1) rest tracks2
      | Except.error e => (tracks, some e)) =
    (tracks, some "unexpected meteorologicalAttributeSignificance")
  rw [herr]

/-- Witness for C1 (amended) at a concrete input: the run `[c1bad, c1good]`
with accumulated collection `[]`; `c1bad` carries significance 4 at rank 4. -/
theorem c1_witness :
    readOneBufrTc c1bad 1 [] =
      Except.error "unexpected meteorologicalAttributeSignificance" ∧
    fetchEcmwfAux 1 (c1bad :: [c1good]) [] =
      ([], some "unexpected meteorologicalAttributeSignificance") :=
  significance_error_aborts_run c1bad [c1good] 1 [] 1 (BufrVal.scalar 6) 4
    [some 10, some 11] [some 20, some 21] [some 100000, some 100000]
    [some 20, some 25] rfl (by norm_num) (by decide) (by decide) (by decide)
    (by decide) (by decide) (by decide) (by decide)
